import Mathlib

/-!
Verification of the AetherIQ automation-platform core against its
natural-language specification.  The Python sources are shallowly embedded
as executable Lean definitions: pure policy functions become Lean
functions, the scheduler loop of the workflow engine becomes an explicit
step function on an engine state, and the database plus asyncio plumbing
is abstracted away exactly where the source treats it as an opaque port.
Opaque payloads (handler results, config values, checkpoint field values)
are coded as natural numbers; wall-clock timestamps and logging are
elided, since no claim examined here depends on them.
-/

namespace AetherIQ

/-! ## Retry / Recovery controller (src/app/services/error_handler.py) -/

/-- Embedding of `ErrorHandler._determine_severity` (error_handler.py lines
186-198).  The source looks the exception class name up in the literal dict
`severity_rules` and falls back to `"medium"`; a dict of string-literal keys
is embedded as the corresponding chain of equality tests. -/
def determine_severity (error_type : String) : String :=
  if error_type = "ConnectionError" then "high"
  else if error_type = "TimeoutError" then "medium"
  else if error_type = "ValueError" then "low"
  else if error_type = "KeyError" then "medium"
  else if error_type = "TypeError" then "low"
  else "medium"

/-- Retry strategy record produced by the controller (`RetryStrategy` model in
error_handler.py).  The `conditions` dict always holds exactly the keys
`severity` and `is_anomaly`, embedded as the two `cond_` fields.  Delay
parameters are exact decimals in the source, embedded as rationals. -/
structure RetryStrategy where
  stage : String
  max_retries : Nat
  backoff_factor : Rat
  initial_delay : Rat
  max_delay : Rat
  cond_severity : String
  cond_is_anomaly : Bool
deriving DecidableEq, Repr

/-- Embedding of `ErrorHandler._get_retry_strategy` (error_handler.py lines
217-258).  The source branches on `pattern.severity` only; `is_anomaly` is
merely copied into the `conditions` dict of the returned strategy. -/
def get_retry_strategy (severity : String) (is_anomaly : Bool) : RetryStrategy :=
  if severity = "critical" then
    { stage := "immediate", max_retries := 3, backoff_factor := 3/2,
      initial_delay := 1, max_delay := 30,
      cond_severity := severity, cond_is_anomaly := is_anomaly }
  else if severity = "high" then
    { stage := "delayed", max_retries := 5, backoff_factor := 2,
      initial_delay := 5, max_delay := 300,
      cond_severity := severity, cond_is_anomaly := is_anomaly }
  else
    { stage := "manual", max_retries := 1, backoff_factor := 1,
      initial_delay := 0, max_delay := 0,
      cond_severity := severity, cond_is_anomaly := is_anomaly }

/-! ## Failover controller (src/app/services/failover.py) -/

/-- One roster entry of `failover:active_nodes` as consumed by
`_should_become_primary`: node id, integer priority and fractional load. -/
structure NodeInfo where
  node_id : String
  priority : Int
  load : Rat
deriving DecidableEq, Repr

/-- Comparison on the Python sort key `(x["priority"], -x["load"])`:
ascending lexicographic order on the pair. -/
def nodeKeyLe (a b : NodeInfo) : Bool :=
  decide (a.priority < b.priority ∨ (a.priority = b.priority ∧ -a.load ≤ -b.load))

/-- Stable insertion of one element into an already sorted list: the new
element goes in front of the first element it compares less-or-equal to. -/
def insertStable {α : Type} (le : α → α → Bool) (x : α) : List α → List α
  | [] => [x]
  | y :: ys => if le x y then x :: y :: ys else y :: insertStable le x ys

/-- Stable ascending sort, the semantics of the Python builtin `sorted`
with a key function (embedded through the comparison `le`). -/
def pySorted {α : Type} (le : α → α → Bool) : List α → List α
  | [] => []
  | x :: xs => insertStable le x (pySorted le xs)

/-- Embedding of `FailoverManager._should_become_primary` (failover.py lines
453-469).  The source sorts the roster with
`sorted(nodes, key=lambda x: (x["priority"], -x["load"]))` — ascending and
stable — and promotes exactly when `sorted_nodes[0]["node_id"]` equals the
current node id.  An empty roster raises IndexError, which the enclosing
`except` turns into `False`; that is the `none` branch here. -/
def should_become_primary (nodes : List NodeInfo) (current : NodeInfo) : Bool :=
  match (pySorted nodeKeyLe nodes).head? with
  | some top => top.node_id == current.node_id
  | none => false

/-- Lexicographic order on node ids, stated on the underlying character
lists so that it evaluates inside the kernel. -/
def strLt (a b : String) : Prop := a.data < b.data

instance (a b : String) : Decidable (strLt a b) :=
  inferInstanceAs (Decidable (a.data < b.data))

/-- Modelled from the spec: "the alive node with the highest
`(priority, −load, node_id)` tuple is PRIMARY".  The tuple order is
lexicographic, so the predicate holds for a roster member that strictly
dominates every other roster entry in that order. -/
def spec_should_become_primary (nodes : List NodeInfo) (current : NodeInfo) : Prop :=
  current ∈ nodes ∧
    ∀ n ∈ nodes, n ≠ current →
      (n.priority < current.priority ∨
        (n.priority = current.priority ∧
          (-n.load < -current.load ∨
            (n.load = current.load ∧ strLt n.node_id current.node_id))))

instance (nodes : List NodeInfo) (current : NodeInfo) :
    Decidable (spec_should_become_primary nodes current) := by
  unfold spec_should_become_primary
  infer_instance

/-- Roster used to exhibit the election defect: two alive nodes with equal
load and distinct priorities. -/
def nodeA : NodeInfo := { node_id := "node-a", priority := 1, load := 0 }

/-- Second roster entry, carrying the higher priority. -/
def nodeB : NodeInfo := { node_id := "node-b", priority := 2, load := 0 }

/-- Roster holding `nodeA` and `nodeB`. -/
def demoRoster : List NodeInfo := [nodeA, nodeB]

/-! ## Checkpoint restoration (error_handler.py `_restore_from_checkpoint`,
failover.py `_validate_checkpoint`) -/

/-- One row of the `workflow_checkpoints` table.  `checkpoint_data` is the
stored dict, embedded as an association list with opaque values coded as
naturals; in particular the value under the key `"version"` is the
checkpoint version. -/
structure CheckpointRow where
  workflow_id : Nat
  created_at : Nat
  checkpoint_data : List (String × Nat)
deriving DecidableEq, Repr

/-- Accumulator step realising `ORDER BY created_at DESC LIMIT 1`: keep the
row with the larger `created_at`, the earlier row on ties. -/
def pickLater (best : Option CheckpointRow) (r : CheckpointRow) : Option CheckpointRow :=
  match best with
  | none => some r
  | some b => if b.created_at < r.created_at then some r else some b

/-- The single row returned by the `SELECT checkpoint_data ... ORDER BY
created_at DESC LIMIT 1` query of `_restore_from_checkpoint`. -/
def latest_checkpoint (rows : List CheckpointRow) : Option CheckpointRow :=
  rows.foldl pickLater none

/-- Embedding of `ErrorHandler._restore_from_checkpoint` (error_handler.py
lines 520-564): load the most recent checkpoint row and apply its data to
the workflow unconditionally; `none` (the source returns False) only when
no checkpoint row exists.  The function receives no information about task
COMPLETED events and performs no version comparison of any kind. -/
def restore_from_checkpoint (rows : List CheckpointRow) : Option (List (String × Nat)) :=
  (latest_checkpoint rows).map (·.checkpoint_data)

/-- Embedding of `FailoverManager._validate_checkpoint` (failover.py lines
163-170): accept exactly when the three required keys are present in the
checkpoint dict; the values, including the version value, are never
inspected. -/
def validate_checkpoint (d : List (String × Nat)) : Bool :=
  ["state", "timestamp", "version"].all (fun f => d.any (fun kv => kv.1 == f))

/-- Modelled from the spec: restoration must be rejected when the
checkpoint version is older than the version of the last durable task
COMPLETED event. -/
def spec_restoration_permitted (ckpt_version last_completed_version : Nat) : Prop :=
  last_completed_version ≤ ckpt_version

instance (a b : Nat) : Decidable (spec_restoration_permitted a b) :=
  inferInstanceAs (Decidable (b ≤ a))

/-- Checkpoint dict with all three required keys but version 0, older than
any completed work. -/
def staleCkpt : List (String × Nat) := [("state", 7), ("timestamp", 100), ("version", 0)]

/-- Checkpoint row carrying `staleCkpt`. -/
def staleRow : CheckpointRow :=
  { workflow_id := 1, created_at := 100, checkpoint_data := staleCkpt }

/-! ## Analytics intake (src/aetheriq/core/analytics.py) -/

/-- Input payload of `process_data`: either a Python dict (embedded as an
association list with opaque values) or a non-dict value, which
`_preprocess_data` rejects with ValueError. -/
inductive PyData
  | dict (entries : List (String × Nat))
  | notDict
deriving DecidableEq, Repr

/-- One element of `self.processing_queue`: the queued dict holds the
processed data and the data type (the wall-clock timestamp the source also
stores is elided). -/
structure QueueItem where
  data : List (String × Nat)
  data_type : String
deriving DecidableEq, Repr

/-- Return value of `process_data`: the success dict reports the queue size
after the put; the error dict carries the exception message. -/
inductive ProcessResult
  | success (queue_size : Nat)
  | error (message : String)
deriving DecidableEq, Repr

/-- Embedding of `AnalyticsEngine._preprocess_data` (analytics.py lines
149-174): raise ValueError unless the payload is a dict, otherwise return
the processed dict.  The metadata and type-specific derived fields the
source adds are elided as they do not affect the queue discipline. -/
def preprocess_data (data : PyData) : Except String (List (String × Nat)) :=
  match data with
  | .notDict => .error "Data must be a dictionary"
  | .dict entries => .ok entries

/-- Embedding of `AnalyticsEngine.process_data` (analytics.py lines 63-93).
The engine constructor creates `self.processing_queue = asyncio.Queue()`
with NO maxsize argument, so the queue is unbounded; `process_data`
validates the payload and then unconditionally awaits `put`, returning a
success dict carrying the new queue size.  No configuration key bounds the
queue and no code path reports backpressure. -/
def process_data (queue : List QueueItem) (data : PyData) (data_type : String) :
    List QueueItem × ProcessResult :=
  match preprocess_data data with
  | .error m => (queue, .error m)
  | .ok d => (queue ++ [{ data := d, data_type := data_type }],
      .success (queue.length + 1))

/-- Queue already holding 10,000 items — full at the capacity the claim
says is the default bound. -/
def emptyMetricsItem : QueueItem := { data := [], data_type := "system_metrics" }

def fullQueue : List QueueItem := List.replicate 10000 emptyMetricsItem

/-! ## Workflow engine (src/aetheriq/core/workflow.py) -/

/-- The `WorkflowStatus` enum of workflow.py. -/
inductive WorkflowStatus
  | pending | running | completed | failed | cancelled | paused
deriving DecidableEq, Repr

/-- The `TaskStatus` enum of workflow.py. -/
inductive TaskStatus
  | pending | running | completed | failed | skipped
deriving DecidableEq, Repr

/-- The `WorkflowTask` dataclass.  Handler results and config values are
opaque payloads, coded as naturals; `start_time` and `end_time` are elided
(no claim treated here mentions them). -/
structure WorkflowTask where
  id : String
  name : String
  task_type : String
  dependencies : List String
  timeout : Nat
  retries : Nat
  status : TaskStatus := .pending
  result : Option Nat := none
  error : Option String := none
  retry_count : Nat := 0
deriving DecidableEq, Repr

/-- The persisted workflow record: identity, display name, status and the
task list (metadata and timestamps elided). -/
structure Workflow where
  id : String
  name : String
  status : WorkflowStatus
  tasks : List WorkflowTask
deriving DecidableEq, Repr

/-- Outcome of one handler invocation for a given task id: `ok` is the
awaited handler result, `error` is any raised exception (timeouts and
missing registry entries included), as observed through
`asyncio.gather(..., return_exceptions=True)`.  The engine never retries a
task, so one outcome per task suffices. -/
abbrev HandlerOutcome := String → Except String Nat

/-- Result processing of `_execute_workflow_tasks` (workflow.py lines
283-290): an exception marks the task FAILED and stores the message,
otherwise the task is marked COMPLETED with its result. -/
def applyOutcome (outcome : HandlerOutcome) (t : WorkflowTask) : WorkflowTask :=
  match outcome t.id with
  | .error e => { t with status := .failed, error := some e }
  | .ok r => { t with status := .completed, result := some r }

/-- Loop state of `_execute_workflow_tasks`: the task list plus the
`completed_tasks` id set (insertion-ordered). -/
structure EngineState where
  tasks : List WorkflowTask
  completed : List String
deriving DecidableEq, Repr

/-- The ready-set computation of `_execute_workflow_tasks` (lines 266-270):
tasks whose id is not yet in `completed_tasks` and whose dependencies are
all in `completed_tasks`.  These are exactly the tasks handed to
`_execute_task`, which immediately sets their status RUNNING. -/
def readyTasks (tasks : List WorkflowTask) (completed : List String) : List WorkflowTask :=
  tasks.filter (fun t =>
    !(decide (t.id ∈ completed)) && t.dependencies.all (fun d => decide (d ∈ completed)))

/-- One iteration body of the scheduling loop: run every ready task, record
each result on the task object, and add every ready id to
`completed_tasks`.  The source mutates the ready task objects in place;
with the ids unique (they are freshly generated UUIDs) this equals mapping
over the list by id. -/
def runRound (outcome : HandlerOutcome) (s : EngineState) : EngineState :=
  { tasks := s.tasks.map (fun t =>
      if (readyTasks s.tasks s.completed).any (fun r => r.id == t.id)
      then applyOutcome outcome t else t),
    completed := s.completed ++ (readyTasks s.tasks s.completed).map (fun r => r.id) }

/-- One guarded step of the `while len(completed_tasks) < len(tasks)` loop:
stop when the guard fails or the ready set is empty (the `break`),
otherwise execute a round. -/
def loopStep (outcome : HandlerOutcome) (s : EngineState) : EngineState :=
  if s.completed.length < s.tasks.length then
    if (readyTasks s.tasks s.completed).isEmpty then s else runRound outcome s
  else s

/-- State of the loop after `n` steps, starting from the freshly loaded
workflow with an empty `completed_tasks` set. -/
def stateAfter (outcome : HandlerOutcome) (wf : Workflow) : Nat → EngineState
  | 0 => { tasks := wf.tasks, completed := [] }
  | n + 1 => loopStep outcome (stateAfter outcome wf n)

/-- The full scheduling loop, driven by fuel.  Every executed round adds at
least one id to `completed_tasks`, so `tasks.length + 1` steps always reach
the fixpoint the unbounded Python `while` reaches. -/
def execLoop (outcome : HandlerOutcome) : Nat → EngineState → EngineState
  | 0, s => s
  | n + 1, s =>
    if s.completed.length < s.tasks.length then
      if (readyTasks s.tasks s.completed).isEmpty then s
      else execLoop outcome n (runRound outcome s)
    else s

/-- Embedding of `_execute_workflow_tasks` (workflow.py lines 253-307): set
the workflow RUNNING, iterate the scheduling loop from an empty
`completed_tasks` set, then persist COMPLETED unless some task is FAILED.
The status is computed from the task list alone; tasks still PENDING when
the ready set empties are ignored.  The `except` path (a database error
marks the workflow FAILED) is not modelled: the persistence port is
embedded as always succeeding. -/
def executeWorkflowTasks (outcome : HandlerOutcome) (wf : Workflow) : Workflow :=
  let final := execLoop outcome (wf.tasks.length + 1)
    { tasks := wf.tasks, completed := [] }
  { wf with
    tasks := final.tasks,
    status := if final.tasks.any (fun t => t.status == TaskStatus.failed)
      then WorkflowStatus.failed else WorkflowStatus.completed }

/-- Task `t` enters RUNNING in round `n + 1` of the loop: it belongs to the
ready set of the state after `n` steps. -/
def dispatchedInRound (outcome : HandlerOutcome) (wf : Workflow) (n : Nat)
    (tid : String) : Prop :=
  tid ∈ (readyTasks (stateAfter outcome wf n).tasks
    (stateAfter outcome wf n).completed).map (fun t => t.id)

instance (outcome : HandlerOutcome) (wf : Workflow) (n : Nat) (tid : String) :
    Decidable (dispatchedInRound outcome wf n tid) := by
  unfold dispatchedInRound
  infer_instance

/-- Result of `execute_workflow` (workflow.py lines 148-179).  A missing
workflow raises ValueError, surfaced as HTTP 500; a full engine returns the
max-concurrency error dict; otherwise an execution task is created and the
workflow runs to the record carried by `started`.  No branch inspects the
stored workflow status. -/
inductive ExecuteResult
  | notFound
  | capacityReached
  | started (finalRecord : Workflow)
deriving DecidableEq, Repr

/-- Embedding of `execute_workflow`: `stored` is the database lookup
result, `activeCount` the size of `self.active_workflows`, `maxConcurrent`
the engine cap. -/
def execute_workflow (outcome : HandlerOutcome) (activeCount maxConcurrent : Nat)
    (stored : Option Workflow) : ExecuteResult :=
  match stored with
  | none => .notFound
  | some wf =>
    if maxConcurrent ≤ activeCount then .capacityReached
    else .started (executeWorkflowTasks outcome wf)

/-- Engine construction parameters read in `WorkflowEngine.__init__`
(defaults 10, 3 and 300). -/
structure EngineConfig where
  max_concurrent_workflows : Nat := 10
  max_task_retries : Nat := 3
  task_timeout_seconds : Nat := 300
deriving DecidableEq, Repr

/-- One caller-supplied task dict of a create request: `name` and `type`
are required keys, the rest default as in `create_workflow`
(`dependencies` to `[]`, `timeout` and `retries` to the engine config). -/
structure TaskSpec where
  name : String
  task_type : String
  dependencies : List String := []
  timeout : Option Nat := none
  retries : Option Nat := none
deriving DecidableEq, Repr

/-- The `WorkflowTask` built for one spec in the create loop (workflow.py
lines 111-121), with `fid` the `str(uuid4())` drawn in that iteration. -/
def mkTask (cfg : EngineConfig) (fid : String) (sp : TaskSpec) : WorkflowTask :=
  { id := fid
    name := sp.name
    task_type := sp.task_type
    dependencies := sp.dependencies
    timeout := sp.timeout.getD cfg.task_timeout_seconds
    retries := sp.retries.getD cfg.max_task_retries }

/-- The create loop: the i-th iteration draws the fresh id `freshIds i`.
`freshIds` stands for the stream of `str(uuid4())` results. -/
def buildTasks (cfg : EngineConfig) (freshIds : Nat → String) :
    Nat → List TaskSpec → List WorkflowTask
  | _, [] => []
  | i, sp :: rest => mkTask cfg (freshIds i) sp :: buildTasks cfg freshIds (i + 1) rest

/-- The in-memory workflow record assembled by `create_workflow`
(workflow.py lines 107-121): generated workflow id, caller name, status
PENDING, and one PENDING task per spec carrying a fresh id and the caller
dependency strings verbatim.  This record is what the function then hands
to the `WorkflowCreate` DTO for persistence; it is built before that
constructor runs. -/
def assembled_workflow (cfg : EngineConfig) (freshWorkflowId : String)
    (freshIds : Nat → String) (name : String) (specs : List TaskSpec) : Workflow :=
  { id := freshWorkflowId
    name := name
    status := .pending
    tasks := buildTasks cfg freshIds 0 specs }

/-- The keyword arguments of a `WorkflowCreate(...)` constructor call,
`none` or `false` standing for an argument that is not supplied. -/
structure WorkflowCreateKwargs where
  id : Option String := none
  name : Option String := none
  status : Option WorkflowStatus := none
  tasks : Option (List WorkflowTask) := none
  metadata_supplied : Bool := false
  created_at_supplied : Bool := false
  template_id : Option String := none
deriving DecidableEq, Repr

/-- Field validation of the `WorkflowCreate` pydantic constructor
(schemas/base.py lines 41-51): `WorkflowBase` declares `name` and
`template_id` as required fields without defaults and `WorkflowCreate`
adds none, so construction raises ValidationError whenever either is
absent; extra keyword arguments are ignored by the default pydantic
config. -/
def validate_workflow_create (kw : WorkflowCreateKwargs) :
    Except String WorkflowCreateKwargs :=
  if kw.name.isNone then .error "ValidationError: name field required"
  else if kw.template_id.isNone then
    .error "ValidationError: template_id field required"
  else .ok kw

/-- Embedding of `create_workflow` (workflow.py lines 99-146): the task
list is built first (lines 111-121), then the `WorkflowCreate` DTO is
constructed with the keyword arguments of lines 125-132 — id, name,
status, tasks, metadata and created_at, but never `template_id`, a
required field of the schema — so the constructor raises ValidationError
on every call before `crud.create` is reached; the enclosing `except`
surfaces HTTP 500 and nothing is persisted.  The function performs no
topology validation: no emptiness, cycle or dangling-dependency check
exists and no InvalidTopology error is ever raised.  The `.ok` branch
carries the record `crud.create` would persist; it is unreachable. -/
def create_workflow (cfg : EngineConfig) (freshWorkflowId : String)
    (freshIds : Nat → String) (name : String) (specs : List TaskSpec) :
    Except String Workflow :=
  match validate_workflow_create
      { id := some freshWorkflowId
        name := some name
        status := some WorkflowStatus.pending
        tasks := some (assembled_workflow cfg freshWorkflowId freshIds name specs).tasks
        metadata_supplied := true
        created_at_supplied := true } with
  | .error e => .error e
  | .ok _ => .ok (assembled_workflow cfg freshWorkflowId freshIds name specs)

/-- Fresh-id stream used by the concrete scenarios. -/
def uuidStream : Nat → String
  | 0 => "uuid-0"
  | 1 => "uuid-1"
  | _ => "uuid-n"

/-- Handler outcome that succeeds on every task. -/
def okOutcome : HandlerOutcome := fun _ => .ok 0

/-- Handler outcome that raises on task "A" and succeeds elsewhere. -/
def failAOutcome : HandlerOutcome :=
  fun tid => if tid == "A" then .error "boom" else .ok 0

/-- Task A of the dispatch scenarios: no dependencies. -/
def taskA : WorkflowTask :=
  { id := "A", name := "a", task_type := "noop", dependencies := [],
    timeout := 300, retries := 3 }

/-- Task B of the dispatch scenarios: depends on A. -/
def taskB : WorkflowTask :=
  { id := "B", name := "b", task_type := "noop", dependencies := ["A"],
    timeout := 300, retries := 3 }

/-- Linear two-task workflow A before B. -/
def wfAB : Workflow :=
  { id := "w1", name := "linear", status := .pending, tasks := [taskA, taskB] }

/-- Task C of the cyclic scenario: depends on D. -/
def taskC : WorkflowTask :=
  { id := "C", name := "c", task_type := "noop", dependencies := ["D"],
    timeout := 300, retries := 3 }

/-- Task D of the cyclic scenario: depends on C. -/
def taskD : WorkflowTask :=
  { id := "D", name := "d", task_type := "noop", dependencies := ["C"],
    timeout := 300, retries := 3 }

/-- Two-task dependency cycle; `create_workflow` accepts it and the
scheduler loop stalls on it immediately. -/
def wfCycle : Workflow :=
  { id := "w2", name := "cyclic", status := .pending, tasks := [taskC, taskD] }

/-- Task A stamped COMPLETED by a successful round. -/
def taskADone : WorkflowTask :=
  { taskA with status := TaskStatus.completed, result := some 0 }

/-- A workflow already in the terminal status COMPLETED, its single task
COMPLETED. -/
def wfDone : Workflow :=
  { id := "w3", name := "done", status := .completed, tasks := [taskADone] }

/-- Dangling-dependency spec used by the create-path scenarios: its single
dependency names no task of the request. -/
def danglingSpec : TaskSpec :=
  { name := "s", task_type := "noop", dependencies := ["missing-task"] }

/-- Well-formed spec: no dependencies, so its request has no cycle and no
dangling reference. -/
def linearSpec : TaskSpec := { name := "a", task_type := "noop" }

/-- Spec used by the C10 scenario: it depends on the caller-side id
"A". -/
def depSpec : TaskSpec :=
  { name := "b", task_type := "noop", dependencies := ["A"] }

/-- A task is finished for the engine exactly when the result-processing
step has stamped it: status COMPLETED or FAILED.  (The engine never
assigns SKIPPED.) -/
def taskFinished (t : WorkflowTask) : Prop :=
  t.status = .completed ∨ t.status = .failed

/-- Invariant relating `completed_tasks` to task statuses: every task whose
id was added to `completed_tasks` has been stamped with a finished
status. -/
def completedStamped (s : EngineState) : Prop :=
  ∀ t ∈ s.tasks, t.id ∈ s.completed → taskFinished t

/-! ## Claim theorems: retry controller and failover -/

/-- C6 counterexample: a permission error — the auth/permission category of
the claim — is classified `"medium"` by the code, not `"critical"`.  The
severity table in `_determine_severity` has no auth or permission entry at
all, so such errors fall to the unknown-type default. -/
theorem c6_permission_error_not_critical :
    determine_severity "PermissionError" = "medium" ∧
    determine_severity "PermissionError" ≠ "critical" := by
  decide

/-- C6 amended: the severity derived from `error_type` is: ConnectionError →
high, TimeoutError → medium, ValueError and TypeError → low, KeyError →
medium, and every other type — including auth and permission errors —
the default medium; no error type is ever classified critical. -/
theorem c6_severity_table (t : String)
    (h : t ∉ ["ConnectionError", "TimeoutError", "ValueError", "KeyError", "TypeError"]) :
    determine_severity "ConnectionError" = "high" ∧
    determine_severity "TimeoutError" = "medium" ∧
    determine_severity "ValueError" = "low" ∧
    determine_severity "TypeError" = "low" ∧
    determine_severity "KeyError" = "medium" ∧
    determine_severity t = "medium" ∧
    determine_severity t ≠ "critical" := by
  simp only [List.mem_cons, List.not_mem_nil, or_false, not_or] at h
  obtain ⟨h1, h2, h3, h4, h5⟩ := h
  refine ⟨by decide, by decide, by decide, by decide, by decide, ?_, ?_⟩ <;>
    simp [determine_severity, h1, h2, h3, h4, h5]

/-- C6 witness: the amended table instantiated at the auth-style error type
`"AuthenticationError"`. -/
theorem c6_severity_table_witness :
    determine_severity "ConnectionError" = "high" ∧
    determine_severity "TimeoutError" = "medium" ∧
    determine_severity "ValueError" = "low" ∧
    determine_severity "TypeError" = "low" ∧
    determine_severity "KeyError" = "medium" ∧
    determine_severity "AuthenticationError" = "medium" ∧
    determine_severity "AuthenticationError" ≠ "critical" :=
  c6_severity_table "AuthenticationError" (by decide)

/-- C7 counterexample: a pattern flagged anomalous but classified critical
receives stage `"immediate"`, not `"manual"` — the anomaly flag does not
override the severity-based stage. -/
theorem c7_anomalous_critical_immediate :
    (get_retry_strategy "critical" true).stage = "immediate" ∧
    (get_retry_strategy "critical" true).stage ≠ "manual" ∧
    (get_retry_strategy "high" true).stage = "delayed" := by
  decide

/-- C7 amended: the anomaly flag is copied into the `conditions` of the
returned strategy but never influences the stage; the stage is a function
of severity alone — immediate for critical, delayed for high, manual
otherwise — for either value of the flag. -/
theorem c7_stage_ignores_anomaly (severity : String) (a b : Bool) :
    (get_retry_strategy severity a).stage = (get_retry_strategy severity b).stage ∧
    (get_retry_strategy severity a).cond_is_anomaly = a ∧
    (get_retry_strategy severity a).stage =
      (if severity = "critical" then "immediate"
       else if severity = "high" then "delayed" else "manual") := by
  unfold get_retry_strategy
  repeat' split
  all_goals simp_all

/-- C7 witness: the amended statement instantiated at severity critical with
the two anomaly-flag values. -/
theorem c7_stage_ignores_anomaly_witness :
    (get_retry_strategy "critical" true).stage = (get_retry_strategy "critical" false).stage ∧
    (get_retry_strategy "critical" true).cond_is_anomaly = true ∧
    (get_retry_strategy "critical" true).stage =
      (if "critical" = "critical" then "immediate"
       else if "critical" = "high" then "delayed" else "manual") :=
  c7_stage_ignores_anomaly "critical" true false

/-- C8: the election code contradicts both the spec and its own comment
("Current node should be primary if it is highest priority").  With two
alive nodes of equal load, the code promotes the node with the LOWEST
priority — Python `sorted` is ascending and the code takes element 0 —
and refuses the highest-priority node, which is the one the maximizing
election predicate of the spec selects. -/
theorem c8_lowest_priority_promoted :
    should_become_primary demoRoster nodeA = true ∧
    should_become_primary demoRoster nodeB = false ∧
    spec_should_become_primary demoRoster nodeB ∧
    ¬ spec_should_become_primary demoRoster nodeA := by
  decide

/-- Helper: folding `pickLater` from a seed row yields a row of the input
(or the seed) whose `created_at` bounds the seed and every input row. -/
theorem foldl_pickLater_spec (rows : List CheckpointRow) (b : CheckpointRow) :
    ∃ m, rows.foldl pickLater (some b) = some m ∧ (m = b ∨ m ∈ rows) ∧
      b.created_at ≤ m.created_at ∧ ∀ r ∈ rows, r.created_at ≤ m.created_at := by
  induction rows generalizing b with
  | nil => exact ⟨b, rfl, Or.inl rfl, le_refl _, by simp⟩
  | cons r rest ih =>
    by_cases h : b.created_at < r.created_at
    · obtain ⟨m, hm, hmem, hler, hall⟩ := ih r
      refine ⟨m, ?_, ?_, ?_, ?_⟩
      · simpa [List.foldl_cons, pickLater, h] using hm
      · rcases hmem with hm1 | hm2
        · exact Or.inr (by simp [hm1])
        · exact Or.inr (List.mem_cons_of_mem _ hm2)
      · exact le_of_lt (lt_of_lt_of_le h hler)
      · intro q hq
        rcases List.mem_cons.mp hq with hq1 | hq2
        · exact hq1 ▸ hler
        · exact hall q hq2
    · obtain ⟨m, hm, hmem, hleb, hall⟩ := ih b
      refine ⟨m, ?_, ?_, hleb, ?_⟩
      · simpa [List.foldl_cons, pickLater, h] using hm
      · rcases hmem with hm1 | hm2
        · exact Or.inl hm1
        · exact Or.inr (List.mem_cons_of_mem _ hm2)
      · intro q hq
        rcases List.mem_cons.mp hq with hq1 | hq2
        · exact hq1 ▸ le_trans (le_of_not_lt h) hleb
        · exact hall q hq2

/-! ## Claim theorems: checkpoint restoration and analytics intake -/

/-- C5 counterexample: a checkpoint whose version (0) is older than the
last durable task COMPLETED event (version 5) passes `_validate_checkpoint`
and is returned and applied by `_restore_from_checkpoint`; no version
comparison guards restoration. -/
theorem c5_stale_checkpoint_accepted :
    validate_checkpoint staleCkpt = true ∧
    ¬ spec_restoration_permitted 0 5 ∧
    restore_from_checkpoint [staleRow] = some staleCkpt := by
  refine ⟨by decide, by decide, rfl⟩

/-- C5 amended: before each retry the checkpoint row with the greatest
`created_at` is reloaded and its data applied, and checkpoint validation
only checks that the keys state, timestamp and version are present — any
version value is accepted, so restoration can regress completed work. -/
theorem c5_restore_latest_no_version_check (rows : List CheckpointRow)
    (c : List (String × Nat)) (h : restore_from_checkpoint rows = some c)
    (s t v : Nat) :
    (∃ r ∈ rows, r.checkpoint_data = c ∧ ∀ q ∈ rows, q.created_at ≤ r.created_at) ∧
    validate_checkpoint [("state", s), ("timestamp", t), ("version", v)] = true := by
  refine ⟨?_, by simp [validate_checkpoint]⟩
  match rows with
  | [] => simp [restore_from_checkpoint, latest_checkpoint] at h
  | r0 :: rest =>
    have hl : (r0 :: rest).foldl pickLater none = rest.foldl pickLater (some r0) := by
      simp [List.foldl_cons, pickLater]
    obtain ⟨m, hm, hmem, hler, hall⟩ := foldl_pickLater_spec rest r0
    have hc : m.checkpoint_data = c := by
      unfold restore_from_checkpoint latest_checkpoint at h
      rw [hl, hm] at h
      simpa using h
    refine ⟨m, ?_, hc, ?_⟩
    · rcases hmem with h1 | h2
      · exact h1 ▸ List.mem_cons_self _ _
      · exact List.mem_cons_of_mem _ h2
    · intro q hq
      rcases List.mem_cons.mp hq with h1 | h2
      · exact h1 ▸ hler
      · exact hall q h2

/-- C5 witness: the amended statement instantiated at a one-row checkpoint
history. -/
theorem c5_restore_latest_witness :
    (∃ r ∈ [staleRow], r.checkpoint_data = staleCkpt ∧
        ∀ q ∈ [staleRow], q.created_at ≤ r.created_at) ∧
    validate_checkpoint [("state", 7), ("timestamp", 100), ("version", 0)] = true :=
  c5_restore_latest_no_version_check [staleRow] staleCkpt rfl 7 100 0

/-- C9 counterexample: a submit performed while the queue already holds
10,000 items — the capacity the claim names — still enqueues the event and
reports success with size 10,001; no backpressure result exists. -/
theorem c9_full_queue_accepts :
    (process_data fullQueue (.dict []) "system_metrics").2 = .success 10001 ∧
    (process_data fullQueue (.dict []) "system_metrics").1.length = 10001 := by
  constructor
  · show ProcessResult.success (fullQueue.length + 1) = .success 10001
    rw [show fullQueue.length = 10000 from List.length_replicate 10000 _]
  · show (fullQueue ++ [emptyMetricsItem]).length = 10001
    rw [List.length_append,
      show fullQueue.length = 10000 from List.length_replicate 10000 _]
    rfl

/-- C9 amended: the intake queue is an unbounded `asyncio.Queue` with no
configurable capacity; every submit whose payload is a dict appends exactly
one item, whatever the current queue length, and returns success with the
new size — there is no backpressure path. -/
theorem c9_unbounded_enqueue (queue : List QueueItem)
    (entries : List (String × Nat)) (dt : String) :
    process_data queue (.dict entries) dt =
      (queue ++ [({ data := entries, data_type := dt } : QueueItem)],
        .success (queue.length + 1)) :=
  rfl

/-- C9 witness: the amended statement instantiated at the full queue. -/
theorem c9_unbounded_enqueue_witness :
    process_data fullQueue (.dict [("cpu_usage", 93)]) "system_metrics" =
      (fullQueue ++ [({ data := [("cpu_usage", 93)], data_type := "system_metrics" } : QueueItem)],
        .success (fullQueue.length + 1)) :=
  c9_unbounded_enqueue fullQueue [("cpu_usage", 93)] "system_metrics"

/-! ## Claim theorems: workflow engine -/

/-- Helper: the result-processing step always stamps a finished status. -/
theorem applyOutcome_finished (o : HandlerOutcome) (t : WorkflowTask) :
    taskFinished (applyOutcome o t) := by
  unfold applyOutcome taskFinished
  cases o t.id <;> simp

/-- Helper: membership in the ready set unpacks to the filter condition of
the source. -/
theorem readyTasks_mem (tasks : List WorkflowTask) (completed : List String)
    (t : WorkflowTask) (h : t ∈ readyTasks tasks completed) :
    t ∈ tasks ∧ t.id ∉ completed ∧ ∀ d ∈ t.dependencies, d ∈ completed := by
  unfold readyTasks at h
  have h2 := List.mem_filter.mp h
  have h3 := h2.2
  simp only [Bool.and_eq_true, Bool.not_eq_true', decide_eq_false_iff_not,
    List.all_eq_true, decide_eq_true_eq] at h3
  exact ⟨h2.1, h3.1, h3.2⟩

/-- Helper: one round preserves the stamping invariant. -/
theorem runRound_stamped (o : HandlerOutcome) (s : EngineState)
    (h : completedStamped s) : completedStamped (runRound o s) := by
  intro t ht hid
  have ht2 : t ∈ s.tasks.map (fun u =>
      if (readyTasks s.tasks s.completed).any (fun r => r.id == u.id)
      then applyOutcome o u else u) := ht
  simp only [List.mem_map] at ht2
  obtain ⟨u, hu, rfl⟩ := ht2
  by_cases hc : (readyTasks s.tasks s.completed).any (fun r => r.id == u.id)
  · rw [if_pos hc]
    exact applyOutcome_finished o u
  · rw [if_neg hc]
    rw [if_neg hc] at hid
    have hid2 : u.id ∈ s.completed ++
        (readyTasks s.tasks s.completed).map (fun r => r.id) := hid
    rcases List.mem_append.mp hid2 with h1 | h2
    · exact h u hu h1
    · exfalso
      simp only [List.mem_map] at h2
      obtain ⟨r, hr, hrid⟩ := h2
      exact hc (List.any_eq_true.mpr ⟨r, hr, by simp [hrid]⟩)

/-- Helper: one guarded loop step preserves the stamping invariant. -/
theorem loopStep_stamped (o : HandlerOutcome) (s : EngineState)
    (h : completedStamped s) : completedStamped (loopStep o s) := by
  unfold loopStep
  split
  · split
    · exact h
    · exact runRound_stamped o s h
  · exact h

/-- Helper: the stamping invariant holds in every reachable loop state. -/
theorem stateAfter_stamped (o : HandlerOutcome) (wf : Workflow) (n : Nat) :
    completedStamped (stateAfter o wf n) := by
  induction n with
  | zero =>
    intro t ht hid
    simp only [stateAfter, List.not_mem_nil] at hid
  | succ n ih => exact loopStep_stamped o _ ih

/-- C1 amended: a task is dispatched (enters the ready set, hence RUNNING)
only when every task named by one of its dependency ids carries a finished
status — COMPLETED or FAILED.  The `completed_tasks` set of the loop also
collects FAILED tasks, so descendants of a FAILED task are dispatched; the
engine never assigns SKIPPED. -/
theorem c1_dispatch_requires_finished_deps (outcome : HandlerOutcome)
    (wf : Workflow) (n : Nat) (t : WorkflowTask)
    (ht : t ∈ readyTasks (stateAfter outcome wf n).tasks
      (stateAfter outcome wf n).completed)
    (d : String) (hd : d ∈ t.dependencies) (u : WorkflowTask)
    (hu : u ∈ (stateAfter outcome wf n).tasks) (hid : u.id = d) :
    u.status = TaskStatus.completed ∨ u.status = TaskStatus.failed := by
  have hstamp := stateAfter_stamped outcome wf n
  have hmem := readyTasks_mem _ _ t ht
  have hd2 : d ∈ (stateAfter outcome wf n).completed := hmem.2.2 d hd
  exact hstamp u hu (by rw [hid]; exact hd2)

/-- C1 witness: the amended statement on the linear workflow A before B
with both handlers succeeding, instantiated after one round, where B is
ready and its dependency A is COMPLETED. -/
theorem c1_dispatch_requires_finished_deps_witness :
    taskADone.status = TaskStatus.completed ∨ taskADone.status = TaskStatus.failed :=
  c1_dispatch_requires_finished_deps okOutcome wfAB 1 taskB (by decide)
    "A" (by decide) taskADone (by decide) rfl

/-- C1 counterexample: in the linear workflow A before B, when the handler
of A raises, B is nevertheless dispatched in the second round — its
dependency A has status FAILED, not COMPLETED and not SKIPPED. -/
theorem c1_failed_dep_dispatched :
    dispatchedInRound failAOutcome wfAB 1 "B" ∧
    (stateAfter failAOutcome wfAB 1).tasks.map (fun t => (t.id, t.status)) =
      [("A", TaskStatus.failed), ("B", TaskStatus.pending)] := by
  decide

/-- C2 counterexample: a well-formed create request — non-empty task
list, no cycle, no dangling dependency — does not persist a PENDING
workflow: the `WorkflowCreate` DTO lacks the required `template_id`
field, the constructor raises ValidationError, and create returns the
HTTP 500 error path.  An empty request fails identically — with
ValidationError, not InvalidTopology. -/
theorem c2_valid_request_not_persisted :
    create_workflow {} "w-ok" uuidStream "linear" [linearSpec] =
      Except.error "ValidationError: template_id field required" ∧
    create_workflow {} "w-empty" uuidStream "empty" [] =
      Except.error "ValidationError: template_id field required" :=
  ⟨rfl, rfl⟩

/-- Helper: the create loop builds one task per spec. -/
theorem buildTasks_length (cfg : EngineConfig) (f : Nat → String)
    (i : Nat) (specs : List TaskSpec) :
    (buildTasks cfg f i specs).length = specs.length := by
  induction specs generalizing i with
  | nil => rfl
  | cons sp rest ih => simpa [buildTasks] using ih (i + 1)

/-- Helper: every task built by the create loop is `mkTask` of some fresh
id and some spec of the request. -/
theorem mem_buildTasks (cfg : EngineConfig) (f : Nat → String)
    (i : Nat) (specs : List TaskSpec) (t : WorkflowTask)
    (h : t ∈ buildTasks cfg f i specs) :
    ∃ j sp, sp ∈ specs ∧ t = mkTask cfg (f j) sp := by
  induction specs generalizing i with
  | nil => simp [buildTasks] at h
  | cons sp rest ih =>
    simp only [buildTasks, List.mem_cons] at h
    rcases h with h1 | h2
    · exact ⟨i, sp, List.mem_cons_self _ _, h1⟩
    · obtain ⟨j, sq, hsq, ht⟩ := ih (i + 1) h2
      exact ⟨j, sq, List.mem_cons_of_mem _ hsq, ht⟩

/-- C2 amended: `create_workflow` performs no topology validation — no
emptiness, cycle or dangling-dependency check and no InvalidTopology
error exist — and it also never persists anything: on every request,
well-formed or not, the `WorkflowCreate` DTO construction fails on the
missing required `template_id` field and create returns the
ValidationError, surfaced as HTTP 500. -/
theorem c2_create_always_validation_error (cfg : EngineConfig) (wid : String)
    (freshIds : Nat → String) (name : String) (specs : List TaskSpec) :
    create_workflow cfg wid freshIds name specs =
      Except.error "ValidationError: template_id field required" :=
  rfl

/-- C2 witness: the amended statement instantiated at a dangling-dependency
request, which fails with the same ValidationError as every other
request. -/
theorem c2_create_always_validation_error_witness :
    create_workflow {} "w" uuidStream "demo" [danglingSpec] =
      Except.error "ValidationError: template_id field required" :=
  c2_create_always_validation_error {} "w" uuidStream "demo" [danglingSpec]

/-- C3 counterexample: on the cyclic two-task workflow the ready set is
empty at once, the loop breaks with both tasks still PENDING, and the
final-status computation — which only looks for FAILED tasks — marks the
workflow COMPLETED. -/
theorem c3_stalled_marked_completed :
    (executeWorkflowTasks okOutcome wfCycle).status = WorkflowStatus.completed ∧
    (executeWorkflowTasks okOutcome wfCycle).tasks.map (fun t => t.status) =
      [TaskStatus.pending, TaskStatus.pending] := by
  decide

/-- C3 amended: when the scheduler loop terminates the workflow status is
FAILED exactly when some task is FAILED, and COMPLETED otherwise — also
when tasks remain PENDING because the ready set emptied early; no other
final status occurs. -/
theorem c3_final_status_from_failed_only (outcome : HandlerOutcome) (wf : Workflow) :
    ((executeWorkflowTasks outcome wf).status = WorkflowStatus.failed ∨
      (executeWorkflowTasks outcome wf).status = WorkflowStatus.completed) ∧
    ((executeWorkflowTasks outcome wf).status = WorkflowStatus.failed ↔
      ∃ t ∈ (executeWorkflowTasks outcome wf).tasks, t.status = TaskStatus.failed) := by
  have hrw : executeWorkflowTasks outcome wf =
      { wf with
        tasks := (execLoop outcome (wf.tasks.length + 1)
          { tasks := wf.tasks, completed := [] }).tasks,
        status := if (execLoop outcome (wf.tasks.length + 1)
            { tasks := wf.tasks, completed := [] }).tasks.any
            (fun t => t.status == TaskStatus.failed)
          then WorkflowStatus.failed else WorkflowStatus.completed } := rfl
  rw [hrw]
  by_cases h : (execLoop outcome (wf.tasks.length + 1)
      { tasks := wf.tasks, completed := [] }).tasks.any
      (fun t => t.status == TaskStatus.failed)
  · rw [if_pos h]
    refine ⟨Or.inl rfl, ?_⟩
    simp only [List.any_eq_true, beq_iff_eq] at h
    exact ⟨fun _ => h, fun _ => rfl⟩
  · rw [if_neg h]
    refine ⟨Or.inr rfl, ?_⟩
    simp only [List.any_eq_true, beq_iff_eq] at h
    exact ⟨fun hc => WorkflowStatus.noConfusion hc, fun hc => absurd hc h⟩

/-- C3 witness: the amended statement instantiated on the stalled cyclic
workflow. -/
theorem c3_final_status_witness :
    ((executeWorkflowTasks okOutcome wfCycle).status = WorkflowStatus.failed ∨
      (executeWorkflowTasks okOutcome wfCycle).status = WorkflowStatus.completed) ∧
    ((executeWorkflowTasks okOutcome wfCycle).status = WorkflowStatus.failed ↔
      ∃ t ∈ (executeWorkflowTasks okOutcome wfCycle).tasks,
        t.status = TaskStatus.failed) :=
  c3_final_status_from_failed_only okOutcome wfCycle

/-- C4 counterexample: executing the already COMPLETED workflow `wfDone` is
accepted — no AlreadyTerminal error exists — and with a failing handler
the re-run flips both the task and the workflow to FAILED, so re-execution
of a COMPLETED workflow is not a no-op. -/
theorem c4_completed_rerun_changes_status :
    wfDone.status = WorkflowStatus.completed ∧
    execute_workflow failAOutcome 0 10 (some wfDone) =
      ExecuteResult.started (executeWorkflowTasks failAOutcome wfDone) ∧
    (executeWorkflowTasks failAOutcome wfDone).status = WorkflowStatus.failed ∧
    (executeWorkflowTasks failAOutcome wfDone).tasks.map (fun t => t.status) =
      [TaskStatus.failed] := by
  decide

/-- C4 amended: `execute_workflow` checks only existence and the
concurrency cap; any stored workflow — terminal status included — is
accepted, set RUNNING, and all its tasks re-executed from an empty
`completed_tasks` set. -/
theorem c4_terminal_accepted_and_rerun (outcome : HandlerOutcome)
    (activeCount maxConcurrent : Nat) (wf : Workflow)
    (hcap : activeCount < maxConcurrent) :
    execute_workflow outcome activeCount maxConcurrent (some wf) =
      ExecuteResult.started (executeWorkflowTasks outcome wf) := by
  simp only [execute_workflow]
  rw [if_neg (not_le_of_lt hcap)]

/-- C4 witness: the amended statement instantiated at the terminal
workflow `wfDone` with an idle engine. -/
theorem c4_terminal_accepted_witness :
    execute_workflow okOutcome 0 10 (some wfDone) =
      ExecuteResult.started (executeWorkflowTasks okOutcome wfDone) :=
  c4_terminal_accepted_and_rerun okOutcome 0 10 wfDone (by decide)

/-- C10: the create path (workflow.py lines 111-121, run before the
failing DTO construction) gives every built task a freshly drawn id and
keeps the caller dependency strings verbatim, so — provided the fresh ids
collide with no caller dependency string, which is the contract of
`uuid4` — no dependency of any task in the assembled workflow record
equals the id of any task in that record. -/
theorem c10_fresh_ids_never_referenced (cfg : EngineConfig) (wid : String)
    (freshIds : Nat → String) (name : String) (specs : List TaskSpec)
    (hfresh : ∀ i, ∀ sp ∈ specs, freshIds i ∉ sp.dependencies)
    (t : WorkflowTask)
    (ht : t ∈ (assembled_workflow cfg wid freshIds name specs).tasks)
    (d : String) (hd : d ∈ t.dependencies) (u : WorkflowTask)
    (hu : u ∈ (assembled_workflow cfg wid freshIds name specs).tasks) :
    u.id ≠ d := by
  obtain ⟨j, sp, hsp, rfl⟩ := mem_buildTasks cfg freshIds 0 specs t ht
  obtain ⟨k, sq, hsq, rfl⟩ := mem_buildTasks cfg freshIds 0 specs u hu
  intro he
  have hd2 : d ∈ sp.dependencies := hd
  have he2 : freshIds k = d := he
  exact hfresh k sp hsp (he2 ▸ hd2)

/-- C10 witness: a one-spec request whose dependency names the caller-side
id "A"; the stored task id is the fresh id and never equals that
dependency. -/
theorem c10_fresh_ids_witness :
    (mkTask {} "u" depSpec).id ≠ "A" :=
  c10_fresh_ids_never_referenced {} "w" (fun _ => "u") "demo" [depSpec]
    (by
      intro i sp hsp
      simp only [List.mem_singleton] at hsp
      subst hsp
      show ("u" : String) ∉ depSpec.dependencies
      decide)
    (mkTask {} "u" depSpec) (by decide) "A" (by decide)
    (mkTask {} "u" depSpec) (by decide)

end AetherIQ
